import Mathlib

/-
Shallow embedding of src/relay/op/contrib/ethosu/unary_elementwise.cc
(the type inference rule EthosuUnaryElementwiseRel for the Ethos-U
unary elementwise operator) and proofs about it.
-/

namespace EthosuUnary

/-- Element data types, mirroring tvm::DataType (code kind + bit width). -/
inductive DataType where
  | int : Nat → DataType
  | uint : Nat → DataType
  | float : Nat → DataType
  | bfloat : Nat → DataType
deriving DecidableEq, Repr

/-- Printed form of a data type, as TVM prints DLDataType (e.g. int8, float32). -/
def DataType.str : DataType → String
  | DataType.int b => "int" ++ toString b
  | DataType.uint b => "uint" ++ toString b
  | DataType.float b => "float" ++ toString b
  | DataType.bfloat b => "bfloat" ++ toString b

/-- A shape dimension: a concrete constant or a symbolic variable (tvm IndexExpr). -/
inductive IndexExpr where
  | const : Nat → IndexExpr
  | var : String → IndexExpr
deriving DecidableEq, Repr

/-- Relay types as the rule observes them: `types[i].as<TensorTypeNode>()`
either yields a resolved tensor type (shape + dtype) or nullptr; the
nullptr case covers IncompleteType and any other non-tensor type. -/
inductive RType where
  | tensorT : List IndexExpr → DataType → RType
  | incompleteT : RType
  | otherT : RType
deriving DecidableEq, Repr

/-- Whether a type slot holds a resolved tensor type. -/
def RType.isTensor : RType → Bool
  | RType.tensorT _ _ => true
  | _ => false

/-- EthosuUnaryElementwiseAttrs: the attribute record attached to the node. -/
structure EthosuUnaryElementwiseAttrs where
  operator_type : String
  ifm_scale : Float
  ifm_zero_point : Int
  ofm_scale : Float
  ofm_zero_point : Int
  ofm_channels : IndexExpr
  activation : String
  clip_min : Int
  clip_max : Int
  rounding_mode : String
  ifm_layout : String
  ofm_layout : String
deriving Repr

/-- How the C++ function terminates: `return true` (output assigned),
`return false` (deferral, or failure after a diagnostic), or a fatal
ICHECK/CHECK abort of the process carrying the check message. -/
inductive RelReturn where
  | success : RelReturn
  | failure : RelReturn
  | abort : String → RelReturn
deriving DecidableEq, Repr

/-- Full observable outcome of one invocation: the return value, the type
slots after the call (reporter->Assign writes slot 2 on success), and the
diagnostics emitted through the reporter. -/
structure RelOutcome where
  ret : RelReturn
  slots : List RType
  diagnostics : List String
deriving DecidableEq, Repr

/-- Message of the arity ICHECK: ICHECK_EQ(types.size(), result_index + 1). -/
def arityCheckMsg : String := "Check failed: types.size() == result_index + 1"

/-- Message of the attrs CHECK. -/
def nullAttrsMsg : String := "EthosuUnaryElementwiseAttrs cannot be nullptr."

/-- Diagnostic emitted for an operator_type other than ABS. -/
def invalidOperatorTypeMsg (op : String) : String :=
  "Invalid operator: expected ethosu_unary_elementwise \x27ABS\x27 for operator_type but was" ++ op

/-- Diagnostic emitted for an element dtype other than uint8 / int8. -/
def invalidDtypeMsg (d : DataType) : String :=
  "Invalid operator: expected ethosu_unary_elementwise input data type of type(uint8) or type(int8) but was " ++ DataType.str d

/-- Shallow embedding of EthosuUnaryElementwiseRel. The shared shape routine
EthosuInferElementwiseOutputShape (common.h, an external collaborator not in
this file's scope) is passed in as `shapeTransform`, taking the input shape,
ifm_layout, ofm_layout and ofm_channels. -/
def EthosuUnaryElementwiseRel
    (shapeTransform : List IndexExpr → String → String → IndexExpr → List IndexExpr)
    (types : List RType) (num_inputs : Int)
    (attrs : Option EthosuUnaryElementwiseAttrs) : RelOutcome :=
  match types with
  | [t0, t1, t2] =>
    match t0 with
    | RType.tensorT ifm_shape ifm_dtype =>
      match attrs with
      | none => ⟨RelReturn.abort nullAttrsMsg, [t0, t1, t2], []⟩
      | some param =>
        if param.operator_type ≠ "ABS" then
          ⟨RelReturn.failure, [t0, t1, t2], [invalidOperatorTypeMsg param.operator_type]⟩
        else if ifm_dtype ≠ DataType.uint 8 ∧ ifm_dtype ≠ DataType.int 8 then
          ⟨RelReturn.failure, [t0, t1, t2], [invalidDtypeMsg ifm_dtype]⟩
        else
          ⟨RelReturn.success,
           [t0, t1,
            RType.tensorT
              (shapeTransform ifm_shape param.ifm_layout param.ofm_layout param.ofm_channels)
              ifm_dtype],
           []⟩
    | _ => ⟨RelReturn.failure, [t0, t1, t2], []⟩
  | _ => ⟨RelReturn.abort arityCheckMsg, types, []⟩

/-- A concrete valid attribute record used to evaluate the rule. -/
def sampleAttrs : EthosuUnaryElementwiseAttrs :=
  ⟨"ABS", 1.0, 0, 1.0, 0, IndexExpr.const 16, "NONE", 0, 0, "TFL", "NHWC", "NHWC"⟩

/-- A concrete attribute record with an unsupported operator_type. -/
def squareAttrs : EthosuUnaryElementwiseAttrs :=
  ⟨"SQUARE", 1.0, 0, 1.0, 0, IndexExpr.const 16, "NONE", 0, 0, "TFL", "NHWC", "NHWC"⟩

/-- A concrete trivial stand-in for the shape collaborator. -/
def idShape : List IndexExpr → String → String → IndexExpr → List IndexExpr :=
  fun s _ _ _ => s

/-- C1: with 3 type slots, slot 0 a resolved tensor of element type int8 or
uint8, and operator_type ABS, inference succeeds and assigns to the output
slot a tensor type with the input's element type and with the Shape
Transform collaborator's shape for (input shape, ifm_layout, ofm_layout,
ofm_channels). -/
theorem abs_inference_succeeds
    (shapeTransform : List IndexExpr → String → String → IndexExpr → List IndexExpr)
    (s : List IndexExpr) (d : DataType) (t1 t2 : RType) (n : Int)
    (a : EthosuUnaryElementwiseAttrs)
    (hop : a.operator_type = "ABS")
    (hd : d = DataType.int 8 ∨ d = DataType.uint 8) :
    EthosuUnaryElementwiseRel shapeTransform [RType.tensorT s d, t1, t2] n (some a) =
      ⟨RelReturn.success,
       [RType.tensorT s d, t1,
        RType.tensorT (shapeTransform s a.ifm_layout a.ofm_layout a.ofm_channels) d],
       []⟩ := by
  rcases hd with h | h <;> subst h <;>
    simp [EthosuUnaryElementwiseRel, hop]

/-- Closed instance of abs_inference_succeeds at a concrete input. -/
theorem abs_inference_succeeds_witness :
    EthosuUnaryElementwiseRel idShape
      [RType.tensorT [IndexExpr.const 1, IndexExpr.const 4, IndexExpr.const 4,
         IndexExpr.const 16] (DataType.uint 8), RType.incompleteT, RType.incompleteT]
      2 (some sampleAttrs) =
      ⟨RelReturn.success,
       [RType.tensorT [IndexExpr.const 1, IndexExpr.const 4, IndexExpr.const 4,
          IndexExpr.const 16] (DataType.uint 8), RType.incompleteT,
        RType.tensorT [IndexExpr.const 1, IndexExpr.const 4, IndexExpr.const 4,
          IndexExpr.const 16] (DataType.uint 8)],
       []⟩ :=
  abs_inference_succeeds idShape
    [IndexExpr.const 1, IndexExpr.const 4, IndexExpr.const 4, IndexExpr.const 16]
    (DataType.uint 8) RType.incompleteT RType.incompleteT 2 sampleAttrs rfl (Or.inr rfl)

/-- C2: an operator_type other than ABS (with a resolved tensor in slot 0)
makes the rule emit one Diagnostic whose text carries the invalid
operator_type value, return failure (not a process abort), and leave the
output slot unassigned. -/
theorem invalid_operator_type_diagnostic
    (shapeTransform : List IndexExpr → String → String → IndexExpr → List IndexExpr)
    (s : List IndexExpr) (d : DataType) (t1 t2 : RType) (n : Int)
    (a : EthosuUnaryElementwiseAttrs)
    (hop : a.operator_type ≠ "ABS") :
    EthosuUnaryElementwiseRel shapeTransform [RType.tensorT s d, t1, t2] n (some a) =
      ⟨RelReturn.failure, [RType.tensorT s d, t1, t2],
       [invalidOperatorTypeMsg a.operator_type]⟩ ∧
    ∃ pre, invalidOperatorTypeMsg a.operator_type = pre ++ a.operator_type := by
  refine ⟨?_, ⟨_, rfl⟩⟩
  simp [EthosuUnaryElementwiseRel, hop]

/-- Closed instance of invalid_operator_type_diagnostic at operator_type SQUARE. -/
theorem invalid_operator_type_diagnostic_witness :
    EthosuUnaryElementwiseRel idShape
      [RType.tensorT [IndexExpr.const 1] (DataType.uint 8), RType.incompleteT,
       RType.incompleteT] 2 (some squareAttrs) =
      ⟨RelReturn.failure,
       [RType.tensorT [IndexExpr.const 1] (DataType.uint 8), RType.incompleteT,
        RType.incompleteT],
       [invalidOperatorTypeMsg "SQUARE"]⟩ ∧
    ∃ pre, invalidOperatorTypeMsg "SQUARE" = pre ++ "SQUARE" :=
  invalid_operator_type_diagnostic idShape [IndexExpr.const 1] (DataType.uint 8)
    RType.incompleteT RType.incompleteT 2 squareAttrs (by decide)

/-- C3: with operator_type ABS but an element dtype outside {int8, uint8},
the rule emits one Diagnostic whose text carries the offending dtype's
printed name, returns failure, and leaves the output slot unassigned. -/
theorem invalid_dtype_diagnostic
    (shapeTransform : List IndexExpr → String → String → IndexExpr → List IndexExpr)
    (s : List IndexExpr) (d : DataType) (t1 t2 : RType) (n : Int)
    (a : EthosuUnaryElementwiseAttrs)
    (hop : a.operator_type = "ABS")
    (hu : d ≠ DataType.uint 8) (hi : d ≠ DataType.int 8) :
    EthosuUnaryElementwiseRel shapeTransform [RType.tensorT s d, t1, t2] n (some a) =
      ⟨RelReturn.failure, [RType.tensorT s d, t1, t2], [invalidDtypeMsg d]⟩ ∧
    ∃ pre, invalidDtypeMsg d = pre ++ DataType.str d := by
  refine ⟨?_, ⟨_, rfl⟩⟩
  simp [EthosuUnaryElementwiseRel, hop, hu, hi]

/-- Closed instance of invalid_dtype_diagnostic at float32. -/
theorem invalid_dtype_diagnostic_witness :
    EthosuUnaryElementwiseRel idShape
      [RType.tensorT [IndexExpr.const 1] (DataType.float 32), RType.incompleteT,
       RType.incompleteT] 2 (some sampleAttrs) =
      ⟨RelReturn.failure,
       [RType.tensorT [IndexExpr.const 1] (DataType.float 32), RType.incompleteT,
        RType.incompleteT],
       [invalidDtypeMsg (DataType.float 32)]⟩ ∧
    ∃ pre, invalidDtypeMsg (DataType.float 32) = pre ++ DataType.str (DataType.float 32) :=
  invalid_dtype_diagnostic idShape [IndexExpr.const 1] (DataType.float 32)
    RType.incompleteT RType.incompleteT 2 sampleAttrs rfl (by decide) (by decide)

/-- C4: with 3 type slots whose slot 0 is not a resolved tensor type, the
rule defers: it returns failure with no Diagnostic and no output
assignment, whatever the attribute record is (even absent). -/
theorem unresolved_input_deferral
    (shapeTransform : List IndexExpr → String → String → IndexExpr → List IndexExpr)
    (t0 t1 t2 : RType) (n : Int) (attrs : Option EthosuUnaryElementwiseAttrs)
    (h : t0.isTensor = false) :
    EthosuUnaryElementwiseRel shapeTransform [t0, t1, t2] n attrs =
      ⟨RelReturn.failure, [t0, t1, t2], []⟩ := by
  cases t0 with
  | tensorT s d => simp [RType.isTensor] at h
  | incompleteT => rfl
  | otherT => rfl

/-- Closed instance of unresolved_input_deferral with a missing attribute record. -/
theorem unresolved_input_deferral_witness :
    EthosuUnaryElementwiseRel idShape
      [RType.incompleteT, RType.incompleteT, RType.incompleteT] 2 none =
      ⟨RelReturn.failure, [RType.incompleteT, RType.incompleteT, RType.incompleteT], []⟩ :=
  unresolved_input_deferral idShape RType.incompleteT RType.incompleteT RType.incompleteT
    2 none rfl

/-- C5: a slot list whose size is not 3 makes the rule abort the process
through the arity ICHECK (no Diagnostic, no assignment); with exactly 3
slots that abort branch is never taken. -/
theorem arity_mismatch_aborts
    (shapeTransform : List IndexExpr → String → String → IndexExpr → List IndexExpr)
    (types : List RType) (n : Int) (attrs : Option EthosuUnaryElementwiseAttrs) :
    (types.length ≠ 3 →
      EthosuUnaryElementwiseRel shapeTransform types n attrs =
        ⟨RelReturn.abort arityCheckMsg, types, []⟩) ∧
    (types.length = 3 →
      (EthosuUnaryElementwiseRel shapeTransform types n attrs).ret ≠
        RelReturn.abort arityCheckMsg) := by
  constructor
  · intro h
    rcases types with _ | ⟨a, _ | ⟨b, _ | ⟨c, _ | ⟨d, rest⟩⟩⟩⟩ <;>
      first | rfl | (exact absurd rfl h)
  · intro h
    rcases types with _ | ⟨a, _ | ⟨b, _ | ⟨c, _ | ⟨d, rest⟩⟩⟩⟩ <;> simp at h
    cases a with
    | tensorT s dt =>
      cases attrs with
      | none =>
        exact (by decide : RelReturn.abort nullAttrsMsg ≠ RelReturn.abort arityCheckMsg)
      | some p =>
        simp only [EthosuUnaryElementwiseRel]
        split
        · simp
        · split <;> simp
    | incompleteT => simp [EthosuUnaryElementwiseRel]
    | otherT => simp [EthosuUnaryElementwiseRel]

/-- Closed instances of both halves of arity_mismatch_aborts. -/
theorem arity_mismatch_aborts_witness :
    EthosuUnaryElementwiseRel idShape [RType.incompleteT] 2 none =
      ⟨RelReturn.abort arityCheckMsg, [RType.incompleteT], []⟩ ∧
    (EthosuUnaryElementwiseRel idShape
        [RType.incompleteT, RType.incompleteT, RType.incompleteT] 2 none).ret ≠
      RelReturn.abort arityCheckMsg :=
  ⟨(arity_mismatch_aborts idShape [RType.incompleteT] 2 none).1 (by decide),
   (arity_mismatch_aborts idShape
      [RType.incompleteT, RType.incompleteT, RType.incompleteT] 2 none).2 rfl⟩

/-- C6: the rule never rewrites its inputs: slots 0 and 1 come out exactly
as they went in, and unless the run succeeds the whole slot list (output
slot included) is untouched; only a successful run assigns the derived
output type into slot 2. -/
theorem rel_frame_condition
    (shapeTransform : List IndexExpr → String → String → IndexExpr → List IndexExpr)
    (types : List RType) (n : Int) (attrs : Option EthosuUnaryElementwiseAttrs) :
    ((EthosuUnaryElementwiseRel shapeTransform types n attrs).ret ≠ RelReturn.success →
      (EthosuUnaryElementwiseRel shapeTransform types n attrs).slots = types) ∧
    (EthosuUnaryElementwiseRel shapeTransform types n attrs).slots.getD 0 RType.incompleteT =
      types.getD 0 RType.incompleteT ∧
    (EthosuUnaryElementwiseRel shapeTransform types n attrs).slots.getD 1 RType.incompleteT =
      types.getD 1 RType.incompleteT := by
  rcases types with _ | ⟨a, _ | ⟨b, _ | ⟨c, _ | ⟨d, rest⟩⟩⟩⟩ <;>
    try exact ⟨fun _ => rfl, rfl, rfl⟩
  cases a with
  | tensorT s dt =>
    cases attrs with
    | none => exact ⟨fun _ => rfl, rfl, rfl⟩
    | some p =>
      refine ⟨?_, ?_, ?_⟩ <;>
        · simp only [EthosuUnaryElementwiseRel]
          split
          · simp
          · split <;> simp
  | incompleteT => exact ⟨fun _ => rfl, rfl, rfl⟩
  | otherT => exact ⟨fun _ => rfl, rfl, rfl⟩

/-- Closed instance of rel_frame_condition on a failing run. -/
theorem rel_frame_condition_witness :
    (EthosuUnaryElementwiseRel idShape
        [RType.tensorT [IndexExpr.const 1] (DataType.uint 8), RType.incompleteT,
         RType.incompleteT] 2 (some squareAttrs)).slots =
      [RType.tensorT [IndexExpr.const 1] (DataType.uint 8), RType.incompleteT,
       RType.incompleteT] :=
  (rel_frame_condition idShape
    [RType.tensorT [IndexExpr.const 1] (DataType.uint 8), RType.incompleteT,
     RType.incompleteT] 2 (some squareAttrs)).1 (by decide)

/-- C7: the rule is a pure function (two invocations on the same input
agree), and on a successful run it is idempotent: re-running it on the
slot list it produced, with the same attributes, reproduces that same
outcome (same output descriptor in slot 2, no new diagnostics). -/
theorem rel_deterministic_idempotent
    (shapeTransform : List IndexExpr → String → String → IndexExpr → List IndexExpr)
    (types : List RType) (n : Int) (attrs : Option EthosuUnaryElementwiseAttrs) :
    EthosuUnaryElementwiseRel shapeTransform types n attrs =
      EthosuUnaryElementwiseRel shapeTransform types n attrs ∧
    ((EthosuUnaryElementwiseRel shapeTransform types n attrs).ret = RelReturn.success →
      EthosuUnaryElementwiseRel shapeTransform
          (EthosuUnaryElementwiseRel shapeTransform types n attrs).slots n attrs =
        EthosuUnaryElementwiseRel shapeTransform types n attrs) := by
  refine ⟨rfl, ?_⟩
  intro h
  rcases types with _ | ⟨a, _ | ⟨b, _ | ⟨c, _ | ⟨d, rest⟩⟩⟩⟩
  · simp [EthosuUnaryElementwiseRel] at h
  · simp [EthosuUnaryElementwiseRel] at h
  · simp [EthosuUnaryElementwiseRel] at h
  · cases a with
    | tensorT s dt =>
      cases attrs with
      | none => simp [EthosuUnaryElementwiseRel] at h
      | some p =>
        by_cases hop : p.operator_type = "ABS"
        · by_cases hdt : dt ≠ DataType.uint 8 ∧ dt ≠ DataType.int 8
          · simp [EthosuUnaryElementwiseRel, hop, hdt] at h
          · simp [EthosuUnaryElementwiseRel, hop, hdt]
        · simp [EthosuUnaryElementwiseRel, hop] at h
    | incompleteT => simp [EthosuUnaryElementwiseRel] at h
    | otherT => simp [EthosuUnaryElementwiseRel] at h
  · simp [EthosuUnaryElementwiseRel] at h

/-- Closed instance of rel_deterministic_idempotent on a successful run. -/
theorem rel_deterministic_idempotent_witness :
    EthosuUnaryElementwiseRel idShape
        (EthosuUnaryElementwiseRel idShape
          [RType.tensorT [IndexExpr.const 1] (DataType.int 8), RType.incompleteT,
           RType.incompleteT] 2 (some sampleAttrs)).slots 2 (some sampleAttrs) =
      EthosuUnaryElementwiseRel idShape
        [RType.tensorT [IndexExpr.const 1] (DataType.int 8), RType.incompleteT,
         RType.incompleteT] 2 (some sampleAttrs) :=
  (rel_deterministic_idempotent idShape
    [RType.tensorT [IndexExpr.const 1] (DataType.int 8), RType.incompleteT,
     RType.incompleteT] 2 (some sampleAttrs)).2 (by decide)

/-- C8: checks run cheap-first: an arity mismatch yields no diagnostic at
all (the operator_type check is never reached); an input that is bad in
both operator_type and dtype is reported for operator_type only; and
whenever any check fails, the outcome is the same for every Shape
Transform collaborator, i.e. the shape computation is only consulted after
all checks pass. -/
theorem validation_order_cheap_first
    (st1 st2 : List IndexExpr → String → String → IndexExpr → List IndexExpr)
    (types : List RType) (n : Int) (attrs : Option EthosuUnaryElementwiseAttrs) :
    (types.length ≠ 3 →
      (EthosuUnaryElementwiseRel st1 types n attrs).diagnostics = []) ∧
    (∀ s d t1 t2 a, types = [RType.tensorT s d, t1, t2] → attrs = some a →
      a.operator_type ≠ "ABS" → d ≠ DataType.uint 8 → d ≠ DataType.int 8 →
      (EthosuUnaryElementwiseRel st1 types n attrs).diagnostics =
        [invalidOperatorTypeMsg a.operator_type]) ∧
    ((EthosuUnaryElementwiseRel st1 types n attrs).ret ≠ RelReturn.success →
      EthosuUnaryElementwiseRel st1 types n attrs =
        EthosuUnaryElementwiseRel st2 types n attrs) := by
  refine ⟨?_, ?_, ?_⟩
  · intro h
    rcases types with _ | ⟨a, _ | ⟨b, _ | ⟨c, _ | ⟨d, rest⟩⟩⟩⟩ <;>
      first | rfl | (exact absurd rfl h)
  · intro s d t1 t2 a hty hat hop hu hi
    subst hty; subst hat
    simp [EthosuUnaryElementwiseRel, hop]
  · intro h
    rcases types with _ | ⟨a, _ | ⟨b, _ | ⟨c, _ | ⟨d, rest⟩⟩⟩⟩
    · rfl
    · rfl
    · rfl
    · cases a with
      | tensorT s dt =>
        cases attrs with
        | none => rfl
        | some p =>
          by_cases hop : p.operator_type = "ABS"
          · by_cases hdt : dt ≠ DataType.uint 8 ∧ dt ≠ DataType.int 8
            · simp [EthosuUnaryElementwiseRel, hop, hdt]
            · exact absurd (by simp [EthosuUnaryElementwiseRel, hop, hdt]) h
          · simp [EthosuUnaryElementwiseRel, hop]
      | incompleteT => rfl
      | otherT => rfl
    · rfl

/-- Closed instances of all three parts of validation_order_cheap_first. -/
theorem validation_order_cheap_first_witness :
    (EthosuUnaryElementwiseRel idShape [RType.incompleteT] 2 (some squareAttrs)).diagnostics =
      [] ∧
    (EthosuUnaryElementwiseRel idShape
        [RType.tensorT [IndexExpr.const 1] (DataType.float 32), RType.incompleteT,
         RType.incompleteT] 2 (some squareAttrs)).diagnostics =
      [invalidOperatorTypeMsg "SQUARE"] ∧
    EthosuUnaryElementwiseRel idShape
        [RType.tensorT [IndexExpr.const 1] (DataType.float 32), RType.incompleteT,
         RType.incompleteT] 2 (some squareAttrs) =
      EthosuUnaryElementwiseRel (fun _ _ _ _ => [])
        [RType.tensorT [IndexExpr.const 1] (DataType.float 32), RType.incompleteT,
         RType.incompleteT] 2 (some squareAttrs) :=
  ⟨(validation_order_cheap_first idShape idShape [RType.incompleteT] 2
      (some squareAttrs)).1 (by decide),
   (validation_order_cheap_first idShape idShape
      [RType.tensorT [IndexExpr.const 1] (DataType.float 32), RType.incompleteT,
       RType.incompleteT] 2 (some squareAttrs)).2.1
     [IndexExpr.const 1] (DataType.float 32) RType.incompleteT RType.incompleteT
     squareAttrs rfl rfl (by decide) (by decide) (by decide),
   (validation_order_cheap_first idShape (fun _ _ _ _ => [])
      [RType.tensorT [IndexExpr.const 1] (DataType.float 32), RType.incompleteT,
       RType.incompleteT] 2 (some squareAttrs)).2.2 (by decide)⟩

/-- C9: the rule never reads clip_min or clip_max: replacing them by any
values (also ones violating clip_min ≤ clip_max under activation CLIP)
leaves the outcome unchanged, so the clip-bound invariant is not enforced
and the rule never fails because of it. -/
theorem clip_bounds_not_enforced
    (shapeTransform : List IndexExpr → String → String → IndexExpr → List IndexExpr)
    (types : List RType) (n : Int) (a : EthosuUnaryElementwiseAttrs)
    (cmin cmax : Int) :
    EthosuUnaryElementwiseRel shapeTransform types n
        (some (EthosuUnaryElementwiseAttrs.mk a.operator_type a.ifm_scale
          a.ifm_zero_point a.ofm_scale a.ofm_zero_point a.ofm_channels a.activation
          cmin cmax a.rounding_mode a.ifm_layout a.ofm_layout)) =
      EthosuUnaryElementwiseRel shapeTransform types n (some a) := by
  rcases types with _ | ⟨t0, _ | ⟨t1, _ | ⟨t2, _ | ⟨t3, rest⟩⟩⟩⟩ <;> rfl

/-- C10: the outcome is a function of slot 0, operator_type, ifm_layout,
ofm_layout and ofm_channels alone: replacing the look-up-table slot (slot 1)
by any type and the scales, zero points, activation and rounding_mode by any
values changes neither the return value, nor the diagnostics, nor the
assigned output slot. -/
theorem result_reads_only_relevant_inputs
    (shapeTransform : List IndexExpr → String → String → IndexExpr → List IndexExpr)
    (t0 lut lut2 t2 : RType) (n : Int) (a : EthosuUnaryElementwiseAttrs)
    (fs1 fs2 : Float) (zp1 zp2 : Int) (act rm : String) :
    ((EthosuUnaryElementwiseRel shapeTransform [t0, lut2, t2] n
        (some (EthosuUnaryElementwiseAttrs.mk a.operator_type fs1 zp1 fs2 zp2
          a.ofm_channels act a.clip_min a.clip_max rm a.ifm_layout
          a.ofm_layout))).ret =
      (EthosuUnaryElementwiseRel shapeTransform [t0, lut, t2] n (some a)).ret) ∧
    ((EthosuUnaryElementwiseRel shapeTransform [t0, lut2, t2] n
        (some (EthosuUnaryElementwiseAttrs.mk a.operator_type fs1 zp1 fs2 zp2
          a.ofm_channels act a.clip_min a.clip_max rm a.ifm_layout
          a.ofm_layout))).diagnostics =
      (EthosuUnaryElementwiseRel shapeTransform [t0, lut, t2] n
        (some a)).diagnostics) ∧
    ((EthosuUnaryElementwiseRel shapeTransform [t0, lut2, t2] n
        (some (EthosuUnaryElementwiseAttrs.mk a.operator_type fs1 zp1 fs2 zp2
          a.ofm_channels act a.clip_min a.clip_max rm a.ifm_layout
          a.ofm_layout))).slots.getD 2 RType.incompleteT =
      (EthosuUnaryElementwiseRel shapeTransform [t0, lut, t2] n
        (some a)).slots.getD 2 RType.incompleteT) := by
  cases t0 with
  | tensorT s d =>
    by_cases hop : a.operator_type = "ABS"
    · by_cases hdt : d ≠ DataType.uint 8 ∧ d ≠ DataType.int 8
      · refine ⟨?_, ?_, ?_⟩ <;> simp [EthosuUnaryElementwiseRel, hop, hdt]
      · refine ⟨?_, ?_, ?_⟩ <;> simp [EthosuUnaryElementwiseRel, hop, hdt]
    · refine ⟨?_, ?_, ?_⟩ <;> simp [EthosuUnaryElementwiseRel, hop]
  | incompleteT => exact ⟨rfl, rfl, rfl⟩
  | otherT => exact ⟨rfl, rfl, rfl⟩

end EthosuUnary
